import Mathlib

/-!
Verification development for the api-self-healer-agent repository.

The repository drives an iterative healing loop (`ApiSelfHealingAgent.heal` in
`src/agent.ts`) over a closed tool catalog (`AgentTools.executeTool`), backed by
an HTTP executor with a format-error classifier (`HttpExecutor` in
`src/services/httpExecutor.ts`) and a semantic fix cache over a Redis vector
index (`MemoryService` in `src/services/memory.ts`).

This file shallowly embeds those components:
* promises that can reject are embedded as `Except String`;
* the external collaborators (Postman API, Parallel AI, the network reached by
  axios, the Redis index, the embedding model) are inputs of the embedded
  functions, so every behaviour of a collaborator is a concrete argument;
* JavaScript numbers used for vector scores are embedded as `ℚ` (the code only
  compares and orders them; the model uses squared L2 distance, which is
  order- and zero-equivalent to the L2 metric of the index);
* `JSON.stringify`/`JSON.parse` round-trips of opaque payloads are embedded by
  carrying the structured value itself.
-/

namespace SelfHealer

/-- The fixed keyword vocabulary of `HttpExecutor.isFormatError`. -/
def formatKeywords : List String :=
  ["invalid", "malformed", "format", "syntax", "parse", "validation", "schema"]

/-- ASCII lowercasing of one character; `message.toLowerCase()` restricted to
the ASCII fragment, which is all the keyword test can observe since every
keyword is ASCII. -/
def toLowerAscii (c : Char) : Char :=
  if 65 ≤ c.toNat ∧ c.toNat ≤ 90 then Char.ofNat (c.toNat + 32) else c

/-- The lowercased message `message.toLowerCase()` as a character list. -/
def lowerChars (s : String) : List Char := s.toList.map toLowerAscii

/-- JavaScript `haystack.includes(needle)`: substring containment, embedded as
infix containment on the character lists. -/
def containsKeyword (haystack : List Char) (needle : String) : Bool :=
  decide (needle.toList <:+: haystack)

/-- The classifier `HttpExecutor.isFormatError(statusCode, error)`: true on 400/422, otherwise
true iff the lowercased error message contains one of the keywords. -/
def isFormatError (statusCode : Nat) (message : String) : Bool :=
  if statusCode == 400 || statusCode == 422 then
    true
  else
    let errorMessage := lowerChars message
    formatKeywords.any (fun keyword => containsKeyword errorMessage keyword)

/-- A JavaScript value that is either a string or an array of strings
(`url.host`, `url.path`). -/
inductive StrOrList
  | single (s : String)
  | multi (l : List String)
deriving DecidableEq, Repr

/-- One `{key, value}` pair (headers, query items, urlencoded and formdata
items). -/
structure KV where
  key : String
  value : String
deriving DecidableEq, Repr

/-- The Postman `url` field: a plain string or a structured object.  Absent
object fields are `none`. -/
inductive PostmanUrl
  | str (s : String)
  | obj (raw : Option String) (protocol : Option String)
      (host : Option StrOrList) (path : Option StrOrList) (query : List KV)
deriving DecidableEq, Repr

/-- The Postman `body` field.  `mode` selects which payload field is read; the
payload fields are optional exactly as in the TypeScript interface. -/
structure PostmanBody where
  mode : String
  raw : Option String := none
  urlencoded : Option (List KV) := none
  formdata : Option (List KV) := none
deriving DecidableEq, Repr

/-- The inner `request` object of a Postman request. -/
structure RequestDef where
  method : String
  url : Option PostmanUrl := none
  header : Option (List KV) := none
  body : Option PostmanBody := none
deriving DecidableEq, Repr

/-- A Postman request wrapper; a missing `request` property (the validated
failure mode of `convertPostmanToAxios`) is `none`. -/
structure PostmanRequest where
  name : Option String := none
  request : Option RequestDef := none
deriving DecidableEq, Repr

/-- The request payload handed to axios: nothing, a raw string body, or a
key-value object (urlencoded/formdata reduced to an object).  The source
additionally tries `JSON.parse` on a raw string body and keeps the parsed
value when it is JSON; that refinement only changes the wire encoding of the
same payload and is not observed by any classified outcome, so the raw string
is carried as-is. -/
inductive BodyData
  | noData
  | rawData (s : String)
  | kvData (l : List (String × String))
deriving DecidableEq, Repr

/-- JavaScript object insertion `acc[key] = value`: overwrite an existing key,
otherwise append (insertion order preserved, as for JS objects). -/
def setKV (acc : List (String × String)) (k v : String) : List (String × String) :=
  if acc.any (fun p => p.1 == k) then
    acc.map (fun p => if p.1 == k then (k, v) else p)
  else
    acc ++ [(k, v)]

/-- The reduction `array.reduce((acc, item) => {acc[item.key] = item.value; return acc}, {})`. -/
def kvReduce (items : List KV) : List (String × String) :=
  items.foldl (fun acc h => setKV acc h.key h.value) []

/-- JavaScript `a || b` on an optional string: the default is used when the
value is absent or empty (falsy). -/
def orDefault (s : Option String) (d : String) : String :=
  match s with
  | some v => if v = "" then d else v
  | none => d

/-- JavaScript string interpolation of a possibly-absent string-or-array value
(`Array.isArray(x) ? x.join(sep) : x`); an absent value renders as
"undefined", as JS template literals do. -/
def joinStrOrList (x : Option StrOrList) (sep : String) : String :=
  match x with
  | some (.single s) => s
  | some (.multi l) => String.intercalate sep l
  | none => "undefined"

/-- The fallback branch of `HttpExecutor.buildUrl` that assembles
`protocol://host/path?query` from the structured fields. -/
def buildUrlObj (protocol : Option String) (host path : Option StrOrList)
    (query : List KV) : String :=
  let fullUrl := orDefault protocol "https" ++ "://" ++ joinStrOrList host "."
    ++ "/" ++ joinStrOrList path "/"
  if query.length > 0 then
    fullUrl ++ "?" ++ String.intercalate "&" (query.map (fun q => q.key ++ "=" ++ q.value))
  else
    fullUrl

/-- The url builder `HttpExecutor.buildUrl`: a string url is returned as-is; otherwise a truthy
`raw` field wins, else the url is assembled from the parts. -/
def buildUrl : PostmanUrl → String
  | .str s => s
  | .obj raw protocol host path query =>
    match raw with
    | some r => if r = "" then buildUrlObj protocol host path query else r
    | none => buildUrlObj protocol host path query

/-- The axios request configuration built by `convertPostmanToAxios`. -/
structure AxiosConfig where
  method : String
  url : String
  headers : List (String × String)
  data : BodyData
  validateStatus : Nat → Bool

/-- The `data` payload computed from the optional Postman body. -/
def bodyData : Option PostmanBody → BodyData
  | none => .noData
  | some b =>
    if b.mode = "raw" then
      match b.raw with
      | some r => .rawData r
      | none => .noData
    else if b.mode = "urlencoded" then
      match b.urlencoded with
      | some items => .kvData (kvReduce items)
      | none => .noData
    else if b.mode = "formdata" then
      match b.formdata with
      | some items => .kvData (kvReduce items)
      | none => .noData
    else
      .noData

/-- The converter `HttpExecutor.convertPostmanToAxios`: validates the request structure
(throw = `Except.error`), then builds the axios config with
`validateStatus: () => true`.  A present-but-empty string `url` is falsy in
JavaScript and also fails the `url` check. -/
def convertPostmanToAxios (postmanRequest : PostmanRequest) : Except String AxiosConfig :=
  match postmanRequest.request with
  | none => .error ("Invalid request format: missing \"request\" property. Expected structure: \x7brequest: \x7burl: ..., method: ..., header: [...], body: \x7b...\x7d\x7d\x7d")
  | some r =>
    match r.url with
    | none => .error ("Invalid request format: missing \"url\" property in request. Expected structure: \x7brequest: \x7burl: ..., method: ..., header: [...], body: \x7b...\x7d\x7d\x7d")
    | some (.str "") => .error ("Invalid request format: missing \"url\" property in request. Expected structure: \x7brequest: \x7burl: ..., method: ..., header: [...], body: \x7b...\x7d\x7d\x7d")
    | some u =>
      .ok
        { method := r.method
          url := buildUrl u
          headers := kvReduce (r.header.getD [])
          data := bodyData r.body
          validateStatus := fun _ => true }

/-- What the network does for one axios call: either an HTTP response is
obtained (any status code) or the request fails at network level with no
response. -/
inductive AxiosOutcome
  | response (status : Nat) (statusText : String) (body : Option String)
      (headers : List (String × String))
  | networkError (message : String)
deriving DecidableEq, Repr

/-- The response carried by a resolved axios promise or attached to an
`AxiosError`. -/
structure AxiosResp where
  status : Nat
  statusText : String
  body : Option String
  headers : List (String × String)
deriving DecidableEq, Repr

/-- An `AxiosError`: a message, and the response when one was received. -/
structure AxiosErr where
  message : String
  response : Option AxiosResp
deriving DecidableEq, Repr

/-- The call `axios(config)` given the network outcome: a received response resolves
iff `config.validateStatus(status)` accepts it, otherwise it rejects with an
`AxiosError` carrying the response; a network failure rejects with an
`AxiosError` carrying no response. -/
def axiosRun (config : AxiosConfig) (outcome : AxiosOutcome) : Except AxiosErr AxiosResp :=
  match outcome with
  | .response s st b h =>
    if config.validateStatus s then
      .ok { status := s, statusText := st, body := b, headers := h }
    else
      .error { message := "Request failed with status code " ++ toString s
               response := some { status := s, statusText := st, body := b, headers := h } }
  | .networkError m => .error { message := m, response := none }

/-- The structured result of `HttpExecutor.executePostmanRequest`. -/
structure ExecutionResult where
  success : Bool
  statusCode : Nat
  statusText : String
  data : Option String
  headers : List (String × String)
  error : Option String := none
  isFormatError : Bool
deriving DecidableEq, Repr

/-- The executor `HttpExecutor.executePostmanRequest`: convert, run axios, and fold every
failure into a structured `ExecutionResult`; the axios-error branch computes
`isFormatError` from the status code and error message, the non-axios branch
(a conversion throw) reports `statusCode 0` and `isFormatError false`. -/
def executePostmanRequest (postmanRequest : PostmanRequest) (outcome : AxiosOutcome) :
    ExecutionResult :=
  match convertPostmanToAxios postmanRequest with
  | .error msg =>
    { success := false, statusCode := 0, statusText := "Unknown Error", data := none
      headers := [], error := some msg, isFormatError := false }
  | .ok config =>
    match axiosRun config outcome with
    | .ok response =>
      { success := true, statusCode := response.status, statusText := response.statusText
        data := response.body, headers := response.headers, isFormatError := false }
    | .error axiosError =>
      let statusCode := (axiosError.response.map (fun r => r.status)).getD 0
      { success := false
        statusCode := statusCode
        statusText := (axiosError.response.map (fun r => r.statusText)).getD "Unknown Error"
        data := axiosError.response.bind (fun r => r.body)
        headers := (axiosError.response.map (fun r => r.headers)).getD []
        error := some axiosError.message
        isFormatError := isFormatError statusCode axiosError.message }

/-- An embedding vector (`Float32Array` of scores; only compared/ordered). -/
abbrev Embedding := List ℚ

/-- One Redis hash written by `MemoryService.storeFix` (the fields of the
`fix:<timestamp>` key).  `fixChanges` and `correctedRequest` are stored as
`JSON.stringify` of opaque values and parsed back verbatim on read, so the
model carries the values themselves. -/
structure CacheEntry where
  id : String
  endpoint : String
  method : String
  statusCode : Nat
  errorMessage : String
  fixDescription : String
  fixType : String
  fixChanges : String
  correctedRequest : String
  timestamp : String
  embedding : Embedding
deriving DecidableEq, Repr

/-- The `fixApplied` sub-record of a `FixEntry`/`SimilarFix`. -/
structure FixApplied where
  type : String
  description : String
  changes : String
deriving DecidableEq, Repr

/-- The interface `FixEntry` (memory.ts): the record handed to `storeFix`. -/
structure FixEntry where
  endpoint : String
  method : String
  statusCode : Nat
  errorMessage : String
  errorResponse : Option String
  fixApplied : FixApplied
  correctedRequest : String
  timestamp : String
deriving DecidableEq, Repr

/-- The interface `SimilarFix` (memory.ts): one query result; `score` is the index
distance (lower = more similar). -/
structure SimilarFix where
  id : String
  endpoint : String
  method : String
  statusCode : Nat
  errorMessage : String
  fixApplied : FixApplied
  correctedRequest : String
  score : ℚ
  timestamp : String
deriving DecidableEq, Repr

/-- The state of the Redis backend: reachable with its current entries, or
unreachable/failing (every command rejects with the given message). -/
inductive Backend
  | avail (index : List CacheEntry)
  | down (message : String)
deriving DecidableEq, Repr

/-- The embedding engine: `none` models the uninitialized `this.embedder`. -/
abbrev Embedder := Option (String → Except String Embedding)

/-- The embedder call `MemoryService.generateEmbedding`: throws when the model is not
initialized, otherwise runs the engine (which may itself fail). -/
def generateEmbedding (embedder : Embedder) (text : String) : Except String Embedding :=
  match embedder with
  | none => .error "Embedding model not initialized"
  | some embed => embed text

/-- The signature builder `MemoryService.buildSearchText`: the signature string
`endpoint statusCode errorMessage`. -/
def buildSearchText (endpoint : String) (statusCode : Nat) (errorMessage : String) : String :=
  endpoint ++ " " ++ toString statusCode ++ " " ++ errorMessage

/-- Squared L2 distance between two embeddings (pointwise on the common
prefix, as vectors of the declared dimension always have equal length). -/
def distL2sq : Embedding → Embedding → ℚ
  | a :: as, b :: bs => (a - b) * (a - b) + distL2sq as bs
  | _, _ => 0

/-- Candidate scoring for a KNN query: each stored entry paired with its
distance to the query vector. -/
def scoreDocs (index : List CacheEntry) (q : Embedding) : List (CacheEntry × ℚ) :=
  index.map (fun e => (e, distL2sq e.embedding q))

/-- Ordering of scored candidates by distance. -/
def scoreLE (a b : CacheEntry × ℚ) : Prop := a.2 ≤ b.2

instance : DecidableRel scoreLE := fun a b => inferInstanceAs (Decidable (a.2 ≤ b.2))

instance : IsTotal (CacheEntry × ℚ) scoreLE := ⟨fun a b => le_total a.2 b.2⟩

instance : IsTrans (CacheEntry × ℚ) scoreLE := ⟨fun _ _ _ => le_trans⟩

/-- The index KNN search `[KNN k @embedding $BLOB AS score]`: the `k` nearest
stored vectors, with their scores, in ascending score order. -/
def knnSearch (index : List CacheEntry) (q : Embedding) (k : Nat) : List (CacheEntry × ℚ) :=
  (List.insertionSort scoreLE (scoreDocs index q)).take k

/-- The search `client.ft.search` on the KNN query: rejects when Redis is unreachable. -/
def ftSearchKNN (backend : Backend) (q : Embedding) (k : Nat) :
    Except String (List (CacheEntry × ℚ)) :=
  match backend with
  | .avail index => .ok (knnSearch index q k)
  | .down message => .error message

/-- The `SimilarFix` built from one returned document in
`MemoryService.findSimilarFixes` (`parseFloat`/`parseInt`/`JSON.parse` of the
stored string fields are the identity on the carried values). -/
def toSimilarFix (doc : CacheEntry × ℚ) : SimilarFix :=
  { id := doc.1.id
    endpoint := doc.1.endpoint
    method := doc.1.method
    statusCode := doc.1.statusCode
    errorMessage := doc.1.errorMessage
    fixApplied :=
      { type := doc.1.fixType
        description := doc.1.fixDescription
        changes := doc.1.fixChanges }
    correctedRequest := doc.1.correctedRequest
    score := doc.2
    timestamp := doc.1.timestamp }

/-- The query `MemoryService.findSimilarFixes` (defaults in the source: `k = 3`,
`maxDistance = 0.5`).  The query embedding is computed before the
`try` block, so an embedding failure propagates; a search failure is caught
and returns `[]`; returned documents are filtered to
`score <= maxDistance` in order. -/
def findSimilarFixes (embedder : Embedder) (backend : Backend)
    (endpoint errorMessage : String) (statusCode : Nat)
    (k : Nat) (maxDistance : ℚ) : Except String (List SimilarFix) :=
  match generateEmbedding embedder (buildSearchText endpoint statusCode errorMessage) with
  | .error e => .error e
  | .ok queryEmbedding =>
    match ftSearchKNN backend queryEmbedding k with
    | .error _ => .ok []
    | .ok docs =>
      .ok (((docs.filter (fun doc => decide (doc.2 ≤ maxDistance))).map toSimilarFix))

/-- The Redis key chosen by `storeFix`: `fix:` + `Date.now()` (milliseconds). -/
def storeKey (now : Nat) : String := "fix:" ++ toString now

/-- The hash fields written for a stored fix. -/
def mkCacheEntry (key : String) (entry : FixEntry) (embedding : Embedding) : CacheEntry :=
  { id := key
    endpoint := entry.endpoint
    method := entry.method
    statusCode := entry.statusCode
    errorMessage := entry.errorMessage
    fixDescription := entry.fixApplied.description
    fixType := entry.fixApplied.type
    fixChanges := entry.fixApplied.changes
    correctedRequest := entry.correctedRequest
    timestamp := entry.timestamp
    embedding := embedding }

/-- The write `client.hSet key fields`: writing to an existing key overwrites its
fields, otherwise a new entry is appended. -/
def hSet (index : List CacheEntry) (key : String) (e : CacheEntry) : List CacheEntry :=
  if index.any (fun c => c.id == key) then
    index.map (fun c => if c.id == key then e else c)
  else
    index ++ [e]

/-- The store `MemoryService.storeFix`: embed the signature (uncaught failure
propagates), then `hSet` under `fix:<Date.now()>` (uncaught failure
propagates when Redis is unreachable). -/
def storeFix (embedder : Embedder) (backend : Backend) (now : Nat) (entry : FixEntry) :
    Except String (List CacheEntry) :=
  match generateEmbedding embedder
      (buildSearchText entry.endpoint entry.statusCode entry.errorMessage) with
  | .error e => .error e
  | .ok embedding =>
    match backend with
    | .down message => .error message
    | .avail index => .ok (hSet index (storeKey now) (mkCacheEntry (storeKey now) entry embedding))

/-- The count `MemoryService.getStoredFixCount`: the indexed document count, 0 on any
failure. -/
def getStoredFixCount (backend : Backend) : Nat :=
  match backend with
  | .avail index => index.length
  | .down _ => 0

/-- The union of the JSON payload shapes returned by the tool handlers. -/
structure ToolPayload where
  success : Option Bool := none
  error : Option String := none
  found : Option Bool := none
  message : Option String := none
  total : Option Nat := none
  requestData : Option PostmanRequest := none
  executionResult : Option ExecutionResult := none
  body : Option String := none
  fixes : List SimilarFix := []
  collectionId : Option String := none
  requestId : Option String := none
deriving DecidableEq, Repr

/-- The `toolInput` object handed to `executeTool`; every field is optional
(the policy may omit any), and JSON-string fields carry their parse outcome.
The opaque corrected request of `store_fix` is carried as its canonical
serialized text. -/
structure ToolInput where
  endpoint : Option String := none
  error_message : Option String := none
  status_code : Option Nat := none
  collection_id : Option String := none
  request_id : Option String := none
  request_json : Option (Except String PostmanRequest) := none
  query : Option String := none
  api_endpoint : Option String := none
  updated_request_json : Option (Except String PostmanRequest) := none
  method : Option String := none
  fix_description : Option String := none
  fix_type : Option String := none
  corrected_request_json : Option (Except String String) := none
deriving Repr

/-- The external collaborators injected into `AgentTools`: the Postman API
(`getRequest`/`updateRequest`), Parallel AI (`searchDocs`), the network seen
by the HTTP executor, and the memory service's embedding engine, Redis
backend and clock. -/
structure Collaborators where
  getRequest : String → String → Except String (Option PostmanRequest)
  updateRequest : String → String → PostmanRequest → Except String Unit
  searchDocs : String → Option String → Except String String
  axiosOutcome : PostmanRequest → AxiosOutcome
  embedder : Embedder
  backend : Backend
  now : Nat

/-- The message of the exception `JSON.parse(undefined)` raises when a
required JSON-string input is absent. -/
def absentJsonMessage : String := "Unexpected token u in JSON at position 0"

/-- The handler `AgentTools.fetchPostmanRequest`: catch-all handler returning the request
or an error payload. -/
def fetchPostmanRequest (c : Collaborators) (collectionId requestId : String) : ToolPayload :=
  match c.getRequest collectionId requestId with
  | .ok none =>
    { error := some "Request not found", collectionId := some collectionId
      requestId := some requestId }
  | .ok (some request) => { requestData := some request }
  | .error e => { error := some e }

/-- The handler `AgentTools.executeApiRequest`: parse the request JSON and execute it;
the executor itself never rejects, and a parse failure is caught into an
error payload. -/
def executeApiRequest (c : Collaborators)
    (requestJson : Option (Except String PostmanRequest)) : ToolPayload :=
  match requestJson with
  | none => { error := some absentJsonMessage, success := some false }
  | some (.error e) => { error := some e, success := some false }
  | some (.ok request) =>
    let result := executePostmanRequest request (c.axiosOutcome request)
    { success := some result.success, error := result.error
      executionResult := some result }

/-- The handler `AgentTools.searchApiDocs`: formatted excerpt text on success, an error
payload on failure. -/
def searchApiDocs (c : Collaborators) (query : String) (apiEndpoint : Option String) :
    ToolPayload :=
  match c.searchDocs query apiEndpoint with
  | .ok results => { body := some results }
  | .error e => { error := some e }

/-- The handler `AgentTools.updatePostmanRequest`: parse the updated request and write it
back; every failure becomes `{error, success: false}`. -/
def updatePostmanRequest (c : Collaborators) (collectionId requestId : String)
    (updatedRequestJson : Option (Except String PostmanRequest)) : ToolPayload :=
  match updatedRequestJson with
  | none => { error := some absentJsonMessage, success := some false }
  | some (.error e) => { error := some e, success := some false }
  | some (.ok updatedRequest) =>
    match c.updateRequest collectionId requestId updatedRequest with
    | .ok _ =>
      { success := some true, message := some "Request updated successfully"
        collectionId := some collectionId, requestId := some requestId }
    | .error e => { error := some e, success := some false }

/-- The handler `AgentTools.checkMemory`: query the fix cache with the source defaults
`k = 3`, `maxDistance = 0.5`; any failure is caught into
`{error, found: false}`. -/
def checkMemory (c : Collaborators) (endpoint errorMessage : String) (statusCode : Nat) :
    ToolPayload :=
  match findSimilarFixes c.embedder c.backend endpoint errorMessage statusCode 3 (1 / 2) with
  | .error e => { error := some e, found := some false }
  | .ok [] =>
    { found := some false, message := some "No similar fixes found in memory"
      total := some (getStoredFixCount c.backend) }
  | .ok fixes =>
    { found := some true
      message := some ("Found " ++ toString fixes.length ++ " similar fix(es)")
      fixes := fixes }

/-- The handler `AgentTools.storeFix` (named apart from `MemoryService.storeFix`): parse
the corrected request, store the fix entry (timestamp from the clock), and
report the post-store count; every failure becomes `{error, success: false}`. -/
def storeFixTool (c : Collaborators) (endpoint method : String) (statusCode : Nat)
    (errorMessage fixDescription fixType : String)
    (correctedRequestJson : Option (Except String String)) : ToolPayload :=
  match correctedRequestJson with
  | none => { error := some absentJsonMessage, success := some false }
  | some (.error e) => { error := some e, success := some false }
  | some (.ok correctedRequest) =>
    match storeFix c.embedder c.backend c.now
        { endpoint := endpoint, method := method, statusCode := statusCode
          errorMessage := errorMessage, errorResponse := none
          fixApplied :=
            { type := fixType, description := fixDescription, changes := correctedRequest }
          correctedRequest := correctedRequest, timestamp := toString c.now } with
    | .ok newIndex =>
      { success := some true, message := some "Fix stored in memory successfully"
        total := some newIndex.length }
    | .error e => { error := some e, success := some false }

/-- The declared tool catalog (`toolDefinitions` names). -/
def toolCatalog : List String :=
  ["check_memory", "fetch_postman_request", "execute_api_request", "search_api_docs",
   "update_postman_request", "store_fix"]

/-- The dispatcher `AgentTools.executeTool`: dispatch on the tool name; absent string inputs
interpolate as JavaScript "undefined", `check_memory` defaults its optional
inputs with `|| ''` and `|| 0`; an unknown tool name throws
`Unknown tool: <name>`. -/
def executeTool (c : Collaborators) (toolName : String) (toolInput : ToolInput) :
    Except String ToolPayload :=
  if toolName = "check_memory" then
    .ok (checkMemory c (toolInput.endpoint.getD "undefined")
      (toolInput.error_message.getD "") (toolInput.status_code.getD 0))
  else if toolName = "fetch_postman_request" then
    .ok (fetchPostmanRequest c (toolInput.collection_id.getD "undefined")
      (toolInput.request_id.getD "undefined"))
  else if toolName = "execute_api_request" then
    .ok (executeApiRequest c toolInput.request_json)
  else if toolName = "search_api_docs" then
    .ok (searchApiDocs c (toolInput.query.getD "undefined") toolInput.api_endpoint)
  else if toolName = "update_postman_request" then
    .ok (updatePostmanRequest c (toolInput.collection_id.getD "undefined")
      (toolInput.request_id.getD "undefined") toolInput.updated_request_json)
  else if toolName = "store_fix" then
    .ok (storeFixTool c (toolInput.endpoint.getD "undefined")
      (toolInput.method.getD "undefined") (toolInput.status_code.getD 0)
      (toolInput.error_message.getD "undefined") (toolInput.fix_description.getD "undefined")
      (toolInput.fix_type.getD "undefined") toolInput.corrected_request_json)
  else
    .error ("Unknown tool: " ++ toolName)

/-- Collaborators all of which fail with the same message: the Postman and
Parallel services reject, the network fails, the embedding engine fails on
every call and Redis is unreachable. -/
def failingCollab (e : String) : Collaborators :=
  { getRequest := fun _ _ => .error e
    updateRequest := fun _ _ _ => .error e
    searchDocs := fun _ _ => .error e
    axiosOutcome := fun _ => .networkError e
    embedder := some (fun _ => .error e)
    backend := .down e
    now := 0 }

/-- A fully populated tool input whose JSON-string fields all parse. -/
def goodInput : ToolInput :=
  { endpoint := some "https://api.example.com/posts"
    error_message := some "Request failed"
    status_code := some 404
    collection_id := some "col-1"
    request_id := some "req-1"
    request_json := some (.ok
      { request := some { method := "GET", url := some (.str "https://api.example.com/posts") } })
    query := some "correct format for POST /posts"
    api_endpoint := some "https://api.example.com"
    updated_request_json := some (.ok
      { request := some { method := "GET", url := some (.str "https://api.example.com/posts") } })
    method := some "GET"
    fix_description := some "fixed url path"
    fix_type := some "url"
    corrected_request_json := some (.ok "corrected-request") }

/-- One tool call emitted by a policy turn (`tool_use` content block). -/
structure ToolCall where
  name : String
  input : ToolInput

/-- One policy response, by `stop_reason`: `end_turn` with its text,
`tool_use` with its tool-call blocks, or any other stop reason (the loop
breaks on those). -/
inductive PolicyResponse
  | endTurn (text : String)
  | toolUse (calls : List ToolCall)
  | otherStop

/-- One transcript message: the opening user prompt, an assistant response,
or a batch of tool results. -/
inductive TranscriptEntry
  | user (text : String)
  | assistant (response : PolicyResponse)
  | toolResults (results : List ToolPayload)

/-- The accumulated `messages` array. -/
abbrev Transcript := List TranscriptEntry

/-- The sequential dispatch loop over one turn's tool-call blocks: executes
calls in emission order, collecting results and tracking
`lastToolName`/`lastToolResult`; a thrown `executeTool` error propagates
immediately. -/
def dispatchAux (ex : String → ToolInput → Except String ToolPayload) :
    List ToolCall → List ToolPayload → String → Option ToolPayload →
      Except String (List ToolPayload × String × Option ToolPayload)
  | [], acc, lastToolName, lastToolResult => .ok (acc, lastToolName, lastToolResult)
  | call :: rest, acc, _, _ =>
    match ex call.name call.input with
    | .error e => .error e
    | .ok result => dispatchAux ex rest (acc ++ [result]) call.name (some result)

/-- The success short-circuit test: the last dispatched tool was
`update_postman_request` and its parsed result has `success === true`. -/
def isUpdateSuccess (lastToolName : String) (lastToolResult : Option ToolPayload) : Bool :=
  lastToolName == "update_postman_request" &&
    match lastToolResult with
    | some r => r.success == some true
    | none => false

/-- The fixed final message of the success short-circuit. -/
def successMessage : String :=
  "Task completed successfully. The API request has been fixed and updated in Postman."

/-- The fixed final message of the iteration cap. -/
def maxIterationsMessage : String := "Max iterations reached. Could not complete the task."

/-- The fixed final message of an unexpected stop reason under the cap. -/
def stoppedMessage : String := "Agent stopped unexpectedly."

/-- The opening user prompt of `heal` (the fixed workflow text after the
identifiers is opaque to the loop and elided). -/
def initialPrompt (collectionId requestId : String) : String :=
  "Please fix the broken API request in Postman collection \"" ++ collectionId
    ++ "\", request ID \"" ++ requestId ++ "\"."

/-- The `while` loop of `ApiSelfHealingAgent.heal`, from the state
`(messages, iteration)`: request a policy turn, return its text on
`end_turn`, dispatch tool calls on `tool_use` (short-circuiting after a
successful update, otherwise appending the assistant turn and the tool
results and iterating), break on any other stop reason, and fall through to
the post-loop returns at the cap.  The second component counts the policy
turns requested from this state. -/
def healAux (policy : Transcript → PolicyResponse)
    (ex : String → ToolInput → Except String ToolPayload) (maxIterations : Nat)
    (msgs : Transcript) (iteration : Nat) : Except String String × Nat :=
  if _h : iteration < maxIterations then
    match policy msgs with
    | .endTurn text => (.ok text, 1)
    | .toolUse calls =>
      match dispatchAux ex calls [] "" none with
      | .error e => (.error e, 1)
      | .ok (results, lastToolName, lastToolResult) =>
        if isUpdateSuccess lastToolName lastToolResult then
          (.ok successMessage, 1)
        else
          let next := healAux policy ex maxIterations
            (msgs ++ [.assistant (.toolUse calls), .toolResults results]) (iteration + 1)
          (next.1, next.2 + 1)
    | .otherStop =>
      (if iteration + 1 ≥ maxIterations then .ok maxIterationsMessage else .ok stoppedMessage, 1)
  else
    (if iteration ≥ maxIterations then .ok maxIterationsMessage else .ok stoppedMessage, 0)
termination_by maxIterations - iteration
decreasing_by omega

/-- The session entry `ApiSelfHealingAgent.heal`: run the loop from the opening prompt. -/
def heal (policy : Transcript → PolicyResponse)
    (ex : String → ToolInput → Except String ToolPayload) (maxIterations : Nat)
    (collectionId requestId : String) : Except String String :=
  (healAux policy ex maxIterations [.user (initialPrompt collectionId requestId)] 0).1

/-- The number of policy turns `heal` requests. -/
def healTurns (policy : Transcript → PolicyResponse)
    (ex : String → ToolInput → Except String ToolPayload) (maxIterations : Nat)
    (collectionId requestId : String) : Nat :=
  (healAux policy ex maxIterations [.user (initialPrompt collectionId requestId)] 0).2

/-- A stale cache entry sharing the signature of `freshFixEntry` (embedding
`[]`, hence at distance 0 of any query in the model). -/
def staleEntry (key : String) : CacheEntry :=
  { id := key, endpoint := "https://api.example.com/one", method := "POST", statusCode := 400
    errorMessage := "Invalid body", fixDescription := "old fix", fixType := "body"
    fixChanges := "changesOld", correctedRequest := "requestOld"
    timestamp := "2024-01-01T00:00:00Z", embedding := [] }

/-- A fresh fix record with the same signature as the stale entries but
distinct data. -/
def freshFixEntry : FixEntry :=
  { endpoint := "https://api.example.com/one", method := "POST", statusCode := 400
    errorMessage := "Invalid body", errorResponse := none
    fixApplied := { type := "body", description := "new fix", changes := "changesNew" }
    correctedRequest := "requestNew", timestamp := "2024-01-02T00:00:00Z" }

/-! ## Theorems -/

/-- Helper: the classifier is the plain disjunction of the status test and the
keyword test. -/
theorem isFormatError_eq_true_iff (s : Nat) (msg : String) :
    isFormatError s msg = true ↔
      s = 400 ∨ s = 422 ∨ ∃ kw ∈ formatKeywords, kw.toList <:+: lowerChars msg := by
  unfold isFormatError containsKeyword
  by_cases h4 : s = 400
  · simp [h4]
  · by_cases h22 : s = 422
    · simp [h22]
    · simp [h4, h22, List.any_eq_true]

/-- C4: either the status-code condition (400/422) or the keyword condition on
the lowercased message is independently sufficient for `FormatError`; the two
are combined by logical OR. -/
theorem isFormatError_or_rule (s : Nat) (msg : String) :
    isFormatError s msg = true ↔
      s = 400 ∨ s = 422 ∨ ∃ kw ∈ formatKeywords, kw.toList <:+: lowerChars msg :=
  isFormatError_eq_true_iff s msg

/-- C3 counterexample: the classifier has no exclusion for authentication or
server status codes; a keyword match classifies 401 and 500 results as format
errors, contradicting `Classify(401, "invalid format") = Other` and
`Classify(500, "malformed") = Other`. -/
theorem isFormatError_auth_server_cex :
    isFormatError 401 "invalid format" = true ∧ isFormatError 500 "malformed" = true := by
  constructor <;> decide

/-- C3 (amended): for status 401, 403 or ≥ 500 the classifier returns
`FormatError` exactly when the lowercased message contains a keyword; there is
no hard status-class exclusion filter. -/
theorem isFormatError_auth_server_keyword (s : Nat) (msg : String)
    (h : s = 401 ∨ s = 403 ∨ 500 ≤ s) :
    isFormatError s msg = true ↔
      ∃ kw ∈ formatKeywords, kw.toList <:+: lowerChars msg := by
  have h4 : s ≠ 400 := by rcases h with h | h | h <;> omega
  have h22 : s ≠ 422 := by rcases h with h | h | h <;> omega
  rw [isFormatError_eq_true_iff]
  constructor
  · rintro (rfl | rfl | hkw)
    · exact absurd rfl h4
    · exact absurd rfl h22
    · exact hkw
  · exact fun hkw => Or.inr (Or.inr hkw)

/-- Witness for the amended C3 theorem at status 401, message "invalid format". -/
theorem isFormatError_auth_server_keyword_witness :
    (401 = 401 ∨ 401 = 403 ∨ 500 ≤ 401) ∧
      (isFormatError 401 "invalid format" = true ↔
        ∃ kw ∈ formatKeywords, kw.toList <:+: lowerChars "invalid format") :=
  ⟨Or.inl rfl, isFormatError_auth_server_keyword 401 "invalid format" (Or.inl rfl)⟩

/-- Every successfully built configuration accepts every status. -/
theorem convert_validateStatus (req : PostmanRequest) (cfg : AxiosConfig)
    (h : convertPostmanToAxios req = .ok cfg) : cfg.validateStatus = fun _ => true := by
  unfold convertPostmanToAxios at h
  rcases req with ⟨name, request⟩
  cases request with
  | none => simp at h
  | some r =>
    rcases hu : r.url with _ | u
    · simp [hu] at h
    · cases u with
      | str s =>
        by_cases hs : s = ""
        · subst hs; simp [hu] at h
        · simp [hu, hs] at h
          rw [← h]
      | obj raw protocol host path query =>
        simp [hu] at h
        rw [← h]

/-- A configuration that accepts every status resolves every received
response. -/
theorem axiosRun_all_statuses (cfg : AxiosConfig) (hv : cfg.validateStatus = fun _ => true)
    (s : Nat) (st : String) (b : Option String) (h : List (String × String)) :
    axiosRun cfg (.response s st b h) =
      .ok { status := s, statusText := st, body := b, headers := h } := by
  unfold axiosRun
  rw [hv]
  simp

/-- C10: whenever the HTTP exchange completes with any response status code
(400, 422, 401, 500, ...), `executePostmanRequest` reports `success = true`
and `isFormatError = false`, because the built configuration accepts every
status; and a result with `isFormatError = true` can only arise from an
outcome in which no HTTP response was obtained at all. -/
theorem executePostmanRequest_accepts_all
    (req : PostmanRequest) (cfg : AxiosConfig) (outcome : AxiosOutcome)
    (s : Nat) (st : String) (b : Option String) (hd : List (String × String))
    (hconv : convertPostmanToAxios req = .ok cfg)
    (hout : outcome = .response s st b hd) :
    ((executePostmanRequest req outcome).success = true
      ∧ (executePostmanRequest req outcome).isFormatError = false
      ∧ (executePostmanRequest req outcome).statusCode = s)
    ∧ ∀ (req' : PostmanRequest) (o : AxiosOutcome),
        (executePostmanRequest req' o).isFormatError = true →
        ∃ m, o = .networkError m := by
  constructor
  · have hv := convert_validateStatus req cfg hconv
    subst hout
    unfold executePostmanRequest
    rw [hconv]
    dsimp only
    rw [axiosRun_all_statuses cfg hv]
    simp
  · intro req' o hfmt
    unfold executePostmanRequest at hfmt
    rcases hc : convertPostmanToAxios req' with msg | cfg'
    · rw [hc] at hfmt; simp at hfmt
    · rw [hc] at hfmt
      have hv := convert_validateStatus req' cfg' hc
      cases o with
      | response s' st' b' hd' =>
        dsimp only at hfmt
        rw [axiosRun_all_statuses cfg' hv] at hfmt
        simp at hfmt
      | networkError m => exact ⟨m, rfl⟩

/-- Witness for C10: a well-formed GET request whose exchange completes with
status 500 is reported as `success = true`, `isFormatError = false`. -/
theorem executePostmanRequest_accepts_all_witness :
    ((executePostmanRequest
        { request := some { method := "GET", url := some (.str "https://api.example.com/posts") } }
        (.response 500 "Internal Server Error" none [])).success = true
      ∧ (executePostmanRequest
        { request := some { method := "GET", url := some (.str "https://api.example.com/posts") } }
        (.response 500 "Internal Server Error" none [])).isFormatError = false
      ∧ (executePostmanRequest
        { request := some { method := "GET", url := some (.str "https://api.example.com/posts") } }
        (.response 500 "Internal Server Error" none [])).statusCode = 500)
    ∧ ∀ (req' : PostmanRequest) (o : AxiosOutcome),
        (executePostmanRequest req' o).isFormatError = true →
        ∃ m, o = .networkError m :=
  executePostmanRequest_accepts_all
    { request := some { method := "GET", url := some (.str "https://api.example.com/posts") } }
    { method := "GET", url := "https://api.example.com/posts", headers := []
      data := .noData, validateStatus := fun _ => true }
    (.response 500 "Internal Server Error" none [])
    500 "Internal Server Error" none [] rfl rfl

/-- C5: every query result that `findSimilarFixes` returns is within the
distance threshold, and the result sequence is in ascending score order. -/
theorem findSimilarFixes_sorted_and_bounded
    (embedder : Embedder) (backend : Backend) (endpoint errorMessage : String)
    (statusCode k : Nat) (maxDistance : ℚ) (fixes : List SimilarFix)
    (h : findSimilarFixes embedder backend endpoint errorMessage statusCode k maxDistance
      = .ok fixes) :
    (∀ f ∈ fixes, f.score ≤ maxDistance)
      ∧ List.Sorted (fun a b => a.score ≤ b.score) fixes := by
  unfold findSimilarFixes at h
  rcases hge : generateEmbedding embedder (buildSearchText endpoint statusCode errorMessage)
    with e | q
  · rw [hge] at h; simp at h
  · rw [hge] at h
    cases backend with
    | down msg =>
      simp [ftSearchKNN] at h
      subst h
      exact ⟨by simp, List.sorted_nil⟩
    | avail index =>
      simp only [ftSearchKNN, Except.ok.injEq] at h
      subst h
      constructor
      · intro f hf
        rcases List.mem_map.1 hf with ⟨d, hd, rfl⟩
        have hdm := List.mem_filter.1 hd
        exact of_decide_eq_true hdm.2
      · have h1 : List.Sorted scoreLE (List.insertionSort scoreLE (scoreDocs index q)) :=
          List.sorted_insertionSort scoreLE _
        have h2 : List.Sorted scoreLE (knnSearch index q k) :=
          List.Pairwise.sublist (List.take_sublist _ _) h1
        have h3 := h2.filter (fun doc => decide (doc.2 ≤ maxDistance))
        exact List.Pairwise.map toSimilarFix (fun a b hab => hab) h3

/-- Witness for C5: a one-entry cache at distance 0 with threshold 0. -/
theorem findSimilarFixes_sorted_and_bounded_witness :
    (∀ f ∈ [toSimilarFix
        ({ id := "fix:1", endpoint := "https://api.example.com/posts", method := "POST"
           statusCode := 400, errorMessage := "Invalid body", fixDescription := "first fix"
           fixType := "body", fixChanges := "changesA", correctedRequest := "requestA"
           timestamp := "2024-01-01T00:00:00Z", embedding := [] }, 0)],
      f.score ≤ (0 : ℚ))
      ∧ List.Sorted (fun a b => a.score ≤ b.score)
        [toSimilarFix
          ({ id := "fix:1", endpoint := "https://api.example.com/posts", method := "POST"
             statusCode := 400, errorMessage := "Invalid body", fixDescription := "first fix"
             fixType := "body", fixChanges := "changesA", correctedRequest := "requestA"
             timestamp := "2024-01-01T00:00:00Z", embedding := [] }, 0)] :=
  findSimilarFixes_sorted_and_bounded (some (fun _ => .ok []))
    (.avail [{ id := "fix:1", endpoint := "https://api.example.com/posts", method := "POST"
               statusCode := 400, errorMessage := "Invalid body", fixDescription := "first fix"
               fixType := "body", fixChanges := "changesA", correctedRequest := "requestA"
               timestamp := "2024-01-01T00:00:00Z", embedding := [] }])
    "https://api.example.com/posts" "Invalid body" 400 3 0 _ rfl

/-- C6 counterexample: with the embedding engine unavailable
(`this.embedder` not initialized), a cache query propagates the failure to
its caller instead of degrading to the empty match list, because the
embedding is computed before the `try` block of `findSimilarFixes`. -/
theorem findSimilarFixes_embedder_down_cex :
    findSimilarFixes none (.avail []) "https://api.example.com/posts" "Request failed" 404 3
        (1 / 2)
      = .error "Embedding model not initialized"
    ∧ findSimilarFixes none (.avail []) "https://api.example.com/posts" "Request failed" 404 3
        (1 / 2)
      ≠ .ok [] := by
  refine ⟨rfl, ?_⟩
  intro h
  simp [findSimilarFixes, generateEmbedding] at h

/-- C6 (amended): an unreachable vector index degrades a query to the empty
match list, but an embedding-engine failure in a query propagates as an
error; a store surfaces both embedding failures and index failures as
errors. -/
theorem cache_failure_asymmetry
    (f : String → Except String Embedding) (q1 q2 : Embedding) (err : String)
    (endpoint errorMessage : String) (statusCode : Nat) (k : Nat) (maxDistance : ℚ)
    (entry : FixEntry) (now : Nat) (backend : Backend)
    (hq : f (buildSearchText endpoint statusCode errorMessage) = .ok q1)
    (hs : f (buildSearchText entry.endpoint entry.statusCode entry.errorMessage) = .ok q2) :
    findSimilarFixes (some f) (.down err) endpoint errorMessage statusCode k maxDistance
        = .ok []
      ∧ storeFix (some f) (.down err) now entry = .error err
      ∧ storeFix none backend now entry = .error "Embedding model not initialized" := by
  have hge1 : generateEmbedding (some f) (buildSearchText endpoint statusCode errorMessage)
    = .ok q1 := hq
  have hge2 : generateEmbedding (some f)
      (buildSearchText entry.endpoint entry.statusCode entry.errorMessage)
    = .ok q2 := hs
  refine ⟨?_, ?_, rfl⟩
  · unfold findSimilarFixes
    rw [hge1]
    rfl
  · unfold storeFix
    rw [hge2]

/-- Witness for the amended C6 theorem with a constant embedding engine. -/
theorem cache_failure_asymmetry_witness :
    findSimilarFixes (some (fun _ => .ok [1])) (.down "connection refused")
        "https://api.example.com/posts" "Request failed" 404 3 (1 / 2)
      = .ok []
    ∧ storeFix (some (fun _ => .ok [1])) (.down "connection refused") 1000
        { endpoint := "https://api.example.com/one", method := "POST", statusCode := 400
          errorMessage := "Invalid body", errorResponse := none
          fixApplied := { type := "body", description := "first fix", changes := "changesA" }
          correctedRequest := "requestA", timestamp := "2024-01-01T00:00:00Z" }
      = .error "connection refused"
    ∧ storeFix none (.avail []) 1000
        { endpoint := "https://api.example.com/one", method := "POST", statusCode := 400
          errorMessage := "Invalid body", errorResponse := none
          fixApplied := { type := "body", description := "first fix", changes := "changesA" }
          correctedRequest := "requestA", timestamp := "2024-01-01T00:00:00Z" }
      = .error "Embedding model not initialized" :=
  cache_failure_asymmetry (fun _ => .ok [1]) [1] [1] "connection refused"
    "https://api.example.com/posts" "Request failed" 404 3 (1 / 2)
    { endpoint := "https://api.example.com/one", method := "POST", statusCode := 400
      errorMessage := "Invalid body", errorResponse := none
      fixApplied := { type := "body", description := "first fix", changes := "changesA" }
      correctedRequest := "requestA", timestamp := "2024-01-01T00:00:00Z" }
    1000 (.avail []) rfl rfl

/-- C8: the key of a stored fix is derived solely from the millisecond clock,
so two stores within the same millisecond use the same key and the second
`hSet` overwrites the first record: starting from an empty index, storing a
first record and then a second one at the same `Date.now()` leaves one entry
holding only the second record's data. -/
theorem storeFix_same_millisecond_overwrites :
    (storeFix (some (fun _ => .ok [1])) (.avail []) 1000
        { endpoint := "https://api.example.com/one", method := "POST", statusCode := 400
          errorMessage := "Invalid body", errorResponse := none
          fixApplied := { type := "body", description := "first fix", changes := "changesA" }
          correctedRequest := "requestA", timestamp := "2024-01-01T00:00:00Z" }).bind
      (fun index1 => storeFix (some (fun _ => .ok [1])) (.avail index1) 1000
        { endpoint := "https://api.example.com/two", method := "POST", statusCode := 422
          errorMessage := "Malformed payload", errorResponse := none
          fixApplied := { type := "header", description := "second fix", changes := "changesB" }
          correctedRequest := "requestB", timestamp := "2024-01-01T00:00:00Z" })
      = .ok [mkCacheEntry "fix:1000"
          { endpoint := "https://api.example.com/two", method := "POST", statusCode := 422
            errorMessage := "Malformed payload", errorResponse := none
            fixApplied := { type := "header", description := "second fix", changes := "changesB" }
            correctedRequest := "requestB", timestamp := "2024-01-01T00:00:00Z" } [1]]
    ∧ storeKey 1000 = storeKey 1000 := by
  exact ⟨rfl, rfl⟩

/-- The distance from an embedding to itself is 0. -/
theorem distL2sq_self (v : Embedding) : distL2sq v v = 0 := by
  induction v with
  | nil => rfl
  | cons a as ih => simp [distL2sq, ih]

/-- The entry written by `hSet` is present in the updated index (whether the
key was fresh or overwritten). -/
theorem mem_hSet (index : List CacheEntry) (key : String) (e : CacheEntry) :
    e ∈ hSet index key e := by
  unfold hSet
  split
  · rename_i h
    rcases List.any_eq_true.1 h with ⟨c, hc, hck⟩
    exact List.mem_map.2 ⟨c, hc, by simp [hck]⟩
  · exact List.mem_append_right _ (List.mem_singleton_self e)

/-- The write `hSet` grows the index by at most one entry. -/
theorem length_hSet_le (index : List CacheEntry) (key : String) (e : CacheEntry) :
    (hSet index key e).length ≤ index.length + 1 := by
  unfold hSet
  split
  · simp
  · simp

/-- When `k` covers the whole index, the KNN search returns every scored
candidate. -/
theorem knnSearch_complete (index : List CacheEntry) (q : Embedding) (k : Nat)
    (hk : index.length ≤ k) (d : CacheEntry × ℚ) (hd : d ∈ scoreDocs index q) :
    d ∈ knnSearch index q k := by
  unfold knnSearch
  have hlen : (List.insertionSort scoreLE (scoreDocs index q)).length = index.length := by
    rw [(List.perm_insertionSort scoreLE (scoreDocs index q)).length_eq]
    simp [scoreDocs]
  rw [List.take_of_length_le (by rw [hlen]; exact hk)]
  exact (List.mem_insertionSort scoreLE).2 hd

/-- C9 counterexample: with three same-signature entries already indexed
(all at distance 0), storing a fourth record and querying with the identical
signature, `k = 3` (the source default) and `maxDistance = 0` returns only
the three old entries: the newly stored record's data (`requestNew`) is
dropped by the KNN take-`k`, so the unrestricted round-trip claim is false. -/
theorem storeFix_findSimilarFixes_roundtrip_cex :
    storeFix (some (fun _ => .ok []))
        (.avail [staleEntry "fix:1", staleEntry "fix:2", staleEntry "fix:3"]) 9 freshFixEntry
      = .ok [staleEntry "fix:1", staleEntry "fix:2", staleEntry "fix:3",
          mkCacheEntry "fix:9" freshFixEntry []]
    ∧ findSimilarFixes (some (fun _ => .ok []))
        (.avail [staleEntry "fix:1", staleEntry "fix:2", staleEntry "fix:3",
          mkCacheEntry "fix:9" freshFixEntry []])
        freshFixEntry.endpoint freshFixEntry.errorMessage freshFixEntry.statusCode 3 0
      = .ok [toSimilarFix (staleEntry "fix:1", 0), toSimilarFix (staleEntry "fix:2", 0),
          toSimilarFix (staleEntry "fix:3", 0)]
    ∧ freshFixEntry.correctedRequest = "requestNew"
    ∧ "requestNew" ∉
        ([toSimilarFix (staleEntry "fix:1", 0), toSimilarFix (staleEntry "fix:2", 0),
          toSimilarFix (staleEntry "fix:3", 0)].map (fun f => f.correctedRequest)) := by
  refine ⟨rfl, rfl, rfl, by decide⟩

/-- C9 (amended): storing a fix record and then querying with the identical
signature (endpoint, status code, error message) and any `maxDistance ≥ 0`
returns a match carrying that record's data verbatim, provided the query's
`k` covers the candidate set (`k` exceeds the number of previously indexed
entries); the KNN clause truncates candidates to `k` before filtering, so
without that premise the stored record can be dropped. -/
theorem storeFix_findSimilarFixes_roundtrip
    (embed : String → Embedding) (index : List CacheEntry) (entry : FixEntry)
    (now k : Nat) (maxDistance : ℚ) (newIndex : List CacheEntry)
    (hk : index.length < k) (hmd : 0 ≤ maxDistance)
    (hstore : storeFix (some (fun s => .ok (embed s))) (.avail index) now entry
      = .ok newIndex) :
    ∃ fixes,
      findSimilarFixes (some (fun s => .ok (embed s))) (.avail newIndex)
          entry.endpoint entry.errorMessage entry.statusCode k maxDistance = .ok fixes
      ∧ ∃ f ∈ fixes,
          f.endpoint = entry.endpoint ∧ f.method = entry.method
          ∧ f.statusCode = entry.statusCode
          ∧ f.fixApplied.type = entry.fixApplied.type
          ∧ f.fixApplied.description = entry.fixApplied.description
          ∧ f.correctedRequest = entry.correctedRequest := by
  unfold storeFix generateEmbedding at hstore
  simp only [Except.ok.injEq] at hstore
  unfold findSimilarFixes generateEmbedding ftSearchKNN
  dsimp only
  refine ⟨_, rfl, ?_⟩
  set q := embed (buildSearchText entry.endpoint entry.statusCode entry.errorMessage) with hq
  set e := mkCacheEntry (storeKey now) entry q with he
  have hmem : e ∈ newIndex := by
    rw [← hstore]
    exact mem_hSet index (storeKey now) e
  have hd : (e, distL2sq e.embedding q) ∈ scoreDocs newIndex q :=
    List.mem_map.2 ⟨e, hmem, rfl⟩
  have hzero : distL2sq e.embedding q = 0 := by
    rw [he]
    exact distL2sq_self q
  have hlen : newIndex.length ≤ k := by
    rw [← hstore]
    exact le_trans (length_hSet_le index (storeKey now) e) hk
  have hknn : (e, distL2sq e.embedding q) ∈ knnSearch newIndex q k :=
    knnSearch_complete newIndex q k hlen _ hd
  have hfil : (e, distL2sq e.embedding q)
      ∈ (knnSearch newIndex q k).filter (fun doc => decide (doc.2 ≤ maxDistance)) :=
    List.mem_filter.2 ⟨hknn, decide_eq_true (by rw [hzero] at *; exact hmd)⟩
  refine ⟨toSimilarFix (e, distL2sq e.embedding q), List.mem_map.2 ⟨_, hfil, rfl⟩, ?_⟩
  simp [toSimilarFix, he, mkCacheEntry]

/-- Witness for C9: an empty prior cache, `k = 3`, `maxDistance = 0`. -/
theorem storeFix_findSimilarFixes_roundtrip_witness :
    ∃ fixes,
      findSimilarFixes (some (fun s => .ok ((fun _ => ([] : Embedding)) s)))
          (.avail [mkCacheEntry "fix:5"
            { endpoint := "https://api.example.com/one", method := "POST", statusCode := 400
              errorMessage := "Invalid body", errorResponse := none
              fixApplied := { type := "body", description := "first fix", changes := "changesA" }
              correctedRequest := "requestA", timestamp := "2024-01-01T00:00:00Z" } []])
          "https://api.example.com/one" "Invalid body" 400 3 0 = .ok fixes
      ∧ ∃ f ∈ fixes,
          f.endpoint = "https://api.example.com/one" ∧ f.method = "POST"
          ∧ f.statusCode = 400
          ∧ f.fixApplied.type = "body"
          ∧ f.fixApplied.description = "first fix"
          ∧ f.correctedRequest = "requestA" :=
  storeFix_findSimilarFixes_roundtrip (fun _ => []) [] 
    { endpoint := "https://api.example.com/one", method := "POST", statusCode := 400
      errorMessage := "Invalid body", errorResponse := none
      fixApplied := { type := "body", description := "first fix", changes := "changesA" }
      correctedRequest := "requestA", timestamp := "2024-01-01T00:00:00Z" }
    5 3 0
    [mkCacheEntry "fix:5"
      { endpoint := "https://api.example.com/one", method := "POST", statusCode := 400
        errorMessage := "Invalid body", errorResponse := none
        fixApplied := { type := "body", description := "first fix", changes := "changesA" }
        correctedRequest := "requestA", timestamp := "2024-01-01T00:00:00Z" } []]
    (by decide) le_rfl rfl

/-- C7: for every collaborator behaviour, every catalog tool returns a
structured payload (`executeTool` never throws for catalog names), and when
every collaborator fails the payload carries the failure description; a
non-catalog name throws `Unknown tool: <name>`, and that error propagates
through the healing loop and aborts the session. -/
theorem executeTool_catalog_total (c : Collaborators) (toolName : String)
    (toolInput : ToolInput) (e : String) :
    (toolName ∈ toolCatalog → ∃ p, executeTool c toolName toolInput = .ok p)
    ∧ (toolName ∉ toolCatalog →
        executeTool c toolName toolInput = .error ("Unknown tool: " ++ toolName))
    ∧ (toolName ∈ toolCatalog →
        ∃ p, executeTool (failingCollab e) toolName goodInput = .ok p ∧ p.error = some e)
    ∧ (toolName ∉ toolCatalog →
        ∀ (policy : Transcript → PolicyResponse) (msgs : Transcript)
          (iteration maxIterations : Nat),
          iteration < maxIterations →
          policy msgs = .toolUse [{ name := toolName, input := toolInput }] →
          healAux policy (executeTool c) maxIterations msgs iteration
            = (.error ("Unknown tool: " ++ toolName), 1)) := by
  have hunknown : toolName ∉ toolCatalog →
      executeTool c toolName toolInput = .error ("Unknown tool: " ++ toolName) := by
    intro h
    simp only [toolCatalog, List.mem_cons, List.not_mem_nil, or_false, not_or] at h
    obtain ⟨h1, h2, h3, h4, h5, h6⟩ := h
    simp [executeTool, h1, h2, h3, h4, h5, h6]
  refine ⟨?_, hunknown, ?_, ?_⟩
  · intro h
    simp only [toolCatalog, List.mem_cons, List.not_mem_nil, or_false] at h
    rcases h with rfl | rfl | rfl | rfl | rfl | rfl <;> exact ⟨_, rfl⟩
  · intro h
    simp only [toolCatalog, List.mem_cons, List.not_mem_nil, or_false] at h
    rcases h with rfl | rfl | rfl | rfl | rfl | rfl <;> exact ⟨_, rfl, rfl⟩
  · intro h policy msgs iteration maxIterations hlt hpol
    rw [healAux, dif_pos hlt, hpol]
    dsimp only
    rw [show dispatchAux (executeTool c) [{ name := toolName, input := toolInput }] [] "" none
        = .error ("Unknown tool: " ++ toolName) by
      unfold dispatchAux
      rw [hunknown h]]

/-- Witness for C7: all collaborators failing with "boom"; `check_memory`
returns a payload, `fetch_postman_request` returns a payload carrying the
failure, and the unknown name `bogus_tool` throws and aborts the loop. -/
theorem executeTool_catalog_total_witness :
    (∃ p, executeTool (failingCollab "boom") "check_memory" goodInput = .ok p)
    ∧ executeTool (failingCollab "boom") "bogus_tool" goodInput
        = .error ("Unknown tool: " ++ "bogus_tool")
    ∧ (∃ p, executeTool (failingCollab "boom") "fetch_postman_request" goodInput = .ok p
        ∧ p.error = some "boom")
    ∧ healAux (fun _ => .toolUse [{ name := "bogus_tool", input := goodInput }])
        (executeTool (failingCollab "boom")) 20 [] 0
        = (.error ("Unknown tool: " ++ "bogus_tool"), 1) :=
  ⟨(executeTool_catalog_total (failingCollab "boom") "check_memory" goodInput "boom").1
      (by decide),
   (executeTool_catalog_total (failingCollab "boom") "bogus_tool" goodInput "boom").2.1
      (by decide),
   (executeTool_catalog_total (failingCollab "boom") "fetch_postman_request" goodInput
      "boom").2.2.1 (by decide),
   (executeTool_catalog_total (failingCollab "boom") "bogus_tool" goodInput "boom").2.2.2
      (by decide) (fun _ => .toolUse [{ name := "bogus_tool", input := goodInput }]) [] 0 20
      (by decide) rfl⟩

/-- Dispatching a batch that ends in call `c`: the earlier calls run first,
then `c`, and the tracked last tool name/result are those of `c`. -/
theorem dispatchAux_append (ex : String → ToolInput → Except String ToolPayload)
    (init : List ToolCall) (c : ToolCall) :
    ∀ acc lastToolName lastToolResult,
      dispatchAux ex (init ++ [c]) acc lastToolName lastToolResult =
        match dispatchAux ex init acc lastToolName lastToolResult with
        | .error e => .error e
        | .ok (results, _, _) =>
          match ex c.name c.input with
          | .error e => .error e
          | .ok r => .ok (results ++ [r], c.name, some r) := by
  induction init with
  | nil =>
    intro acc lastToolName lastToolResult
    simp only [List.nil_append]
    cases hx : ex c.name c.input <;> simp [dispatchAux, hx]
  | cons d rest ih =>
    intro acc lastToolName lastToolResult
    simp only [List.cons_append, dispatchAux]
    cases ex d.name d.input <;> simp [ih]

/-- C1: if the loop is under the iteration cap and the policy turn's batch
ends with an `update_postman_request` call whose result has
`success = true` (all earlier calls succeeding), the loop returns the fixed
success message from this turn, requesting exactly one policy turn — no
further one. -/
theorem heal_update_success_short_circuit
    (policy : Transcript → PolicyResponse)
    (ex : String → ToolInput → Except String ToolPayload) (maxIterations : Nat)
    (msgs : Transcript) (iteration : Nat) (init : List ToolCall) (c : ToolCall)
    (t : List ToolPayload × String × Option ToolPayload) (r : ToolPayload)
    (hiter : iteration < maxIterations)
    (hpolicy : policy msgs = .toolUse (init ++ [c]))
    (hname : c.name = "update_postman_request")
    (hinit : dispatchAux ex init [] "" none = .ok t)
    (hcall : ex c.name c.input = .ok r)
    (hsucc : r.success = some true) :
    healAux policy ex maxIterations msgs iteration = (.ok successMessage, 1) := by
  rw [healAux, dif_pos hiter, hpolicy]
  dsimp only
  rw [dispatchAux_append ex init c [] "" none, hinit]
  obtain ⟨results, lastToolName, lastToolResult⟩ := t
  dsimp only
  rw [hcall]
  dsimp only
  rw [if_pos (by simp [isUpdateSuccess, hname, hsucc])]

/-- Witness for C1: a single-call batch updating Postman successfully on the
first turn. -/
theorem heal_update_success_short_circuit_witness :
    healAux (fun _ => .toolUse [{ name := "update_postman_request", input := goodInput }])
        (fun _ _ => .ok { success := some true }) 20 [] 0
      = (.ok successMessage, 1) :=
  heal_update_success_short_circuit
    (fun _ => .toolUse [{ name := "update_postman_request", input := goodInput }])
    (fun _ _ => .ok { success := some true }) 20 [] 0
    [] { name := "update_postman_request", input := goodInput }
    ([], "", none) { success := some true }
    (by decide) rfl rfl rfl rfl rfl

/-- If every policy turn emits tool calls that all dispatch without throwing
and never end in a successful update result, the loop runs to the cap: the
result is the fixed max-iterations message and at most
`maxIterations - iteration` further policy turns are requested. -/
theorem healAux_never_update_success
    (policy : Transcript → PolicyResponse)
    (ex : String → ToolInput → Except String ToolPayload) (maxIterations : Nat)
    (hp : ∀ msgs, ∃ calls t, policy msgs = .toolUse calls
      ∧ dispatchAux ex calls [] "" none = .ok t
      ∧ isUpdateSuccess t.2.1 t.2.2 = false) :
    ∀ (n : Nat) (msgs : Transcript) (iteration : Nat), maxIterations - iteration ≤ n →
      (healAux policy ex maxIterations msgs iteration).1 = .ok maxIterationsMessage
      ∧ (healAux policy ex maxIterations msgs iteration).2 ≤ maxIterations - iteration := by
  intro n
  induction n with
  | zero =>
    intro msgs iteration hn
    have hge : ¬ iteration < maxIterations := by omega
    rw [healAux, dif_neg hge, if_pos (by omega : iteration ≥ maxIterations)]
    exact ⟨rfl, Nat.zero_le _⟩
  | succ n ih =>
    intro msgs iteration hn
    by_cases hlt : iteration < maxIterations
    · obtain ⟨calls, t, hpol, hdisp, hupd⟩ := hp msgs
      obtain ⟨results, lastToolName, lastToolResult⟩ := t
      rw [healAux, dif_pos hlt, hpol]
      dsimp only
      rw [hdisp]
      dsimp only
      dsimp only at hupd
      rw [if_neg (by simp [hupd])]
      have ihx := ih (msgs ++ [.assistant (.toolUse calls), .toolResults results])
        (iteration + 1) (by omega)
      refine ⟨ihx.1, ?_⟩
      have := ihx.2
      omega
    · rw [healAux, dif_neg hlt, if_pos (by omega : iteration ≥ maxIterations)]
      exact ⟨rfl, Nat.zero_le _⟩

/-- C2: whenever every policy turn carries tool calls that all dispatch to
structured results and never end in a successful `update_postman_request`
result, `heal` requests at most `maxIterations` policy turns and returns the
fixed max-iterations message as a normal value — never an exception. -/
theorem heal_max_iterations
    (policy : Transcript → PolicyResponse)
    (ex : String → ToolInput → Except String ToolPayload) (maxIterations : Nat)
    (collectionId requestId : String)
    (hp : ∀ msgs, ∃ calls t, policy msgs = .toolUse calls
      ∧ dispatchAux ex calls [] "" none = .ok t
      ∧ isUpdateSuccess t.2.1 t.2.2 = false) :
    heal policy ex maxIterations collectionId requestId = .ok maxIterationsMessage
    ∧ healTurns policy ex maxIterations collectionId requestId ≤ maxIterations := by
  have h := healAux_never_update_success policy ex maxIterations hp maxIterations
    [.user (initialPrompt collectionId requestId)] 0 (by omega)
  exact ⟨h.1, by have := h.2; unfold healTurns; omega⟩

/-- Witness for C2: a policy that always calls `check_memory` with a tool
executor returning an empty payload; the loop caps out at 2 turns. -/
theorem heal_max_iterations_witness :
    heal (fun _ => .toolUse [{ name := "check_memory", input := goodInput }])
        (fun _ _ => .ok {}) 2 "col-1" "req-1"
      = .ok maxIterationsMessage
    ∧ healTurns (fun _ => .toolUse [{ name := "check_memory", input := goodInput }])
        (fun _ _ => .ok {}) 2 "col-1" "req-1"
      ≤ 2 :=
  heal_max_iterations (fun _ => .toolUse [{ name := "check_memory", input := goodInput }])
    (fun _ _ => .ok {}) 2 "col-1" "req-1"
    (fun _ => ⟨[{ name := "check_memory", input := goodInput }],
      ([{}], "check_memory", some {}), rfl, rfl, rfl⟩)

end SelfHealer
